import Mathlib

/-
Verification of the booking-app session broker (backend auth controller,
auth middleware and the appointment data model) against its specification.

The authoritative controller is the consolidated auth controller
(register / login / logout / getProfile built on the identity provider
client); the repository also contains an earlier draft controller
(src/backend/src/controllers/authController.ts) whose register performs
local validation and then answers 501 without any provider call.  Both are
embedded below.  Request fields coming from a JSON body are `Option String`
(absent / null collapse to `none`); JS truthiness of such a field is
`truthy`.  A call into the identity provider either returns a value or
throws; the `Call` type captures exactly that, and each controller is a
pure function of the request data and of the provider behaviour for the
one call it makes.
-/

namespace Booking

/-- JS truthiness of a string-valued request field: absent, null and the
empty string are falsy, every non-empty string is truthy. -/
def truthy : Option String → Bool
  | none => false
  | some s => !s.isEmpty

/-- JS `x || dflt` on a string-valued field. -/
def jsOr (x : Option String) (dflt : String) : String :=
  match x with
  | none => dflt
  | some s => if s.isEmpty then dflt else s

/-- The sameSite cookie attribute values used by the controller. -/
inductive SameSite where
  | strict
  | lax
  deriving DecidableEq, Repr

/-- Cookie attributes as passed to res.cookie (maxAge is in milliseconds,
as in the express cookie options). -/
structure CookieOptions where
  httpOnly : Bool
  secure : Bool
  sameSite : SameSite
  maxAge : Nat
  path : String
  deriving DecidableEq, Repr

/-- COOKIE_OPTIONS from the consolidated auth controller: httpOnly, secure
only in production, sameSite strict in production else lax, seven days in
milliseconds, path "/".  The production flag embeds the runtime check of
the NODE_ENV variable. -/
def cookieOptions (isProduction : Bool) : CookieOptions :=
  { httpOnly := true
    secure := isProduction
    sameSite := if isProduction then SameSite.strict else SameSite.lax
    maxAge := 7 * 24 * 60 * 60 * 1000
    path := "/" }

/-- One cookie effect on the response: res.cookie sets a named cookie with
options, res.clearCookie clears a named cookie. -/
inductive CookieAction where
  | set (name : String) (value : String) (opts : CookieOptions)
  | clear (name : String)
  deriving DecidableEq, Repr

/-- The user_metadata object attached to a provider user ({name, role}). -/
structure UserMetadata where
  name : Option String
  role : Option String
  deriving DecidableEq, Repr

/-- A user record as returned by the identity provider: id is always
present, email and user_metadata may be absent (the controller reads them
with optional chaining). -/
structure SupabaseUser where
  id : String
  email : Option String
  user_metadata : Option UserMetadata
  deriving DecidableEq, Repr

/-- A provider session: the access / refresh token pair. -/
structure Session where
  access_token : String
  refresh_token : String
  deriving DecidableEq, Repr

/-- The normalized user object placed in response bodies:
{id, email, name, role}, each possibly undefined. -/
structure UserOut where
  id : Option String
  email : Option String
  name : Option String
  role : Option String
  deriving DecidableEq, Repr

/-- The JSON response bodies produced by the controllers, one constructor
per object shape occurring in the source. -/
inductive Body where
  | errOnly (error : String)
  | errMsg (error : String) (message : String)
  | msgOnly (message : String)
  | msgUser (message : String) (user : UserOut)
  | userOnly (user : UserOut)
  | msgTodo (message : String) (todo : String)
  | msgReceived (message : String) (email : Option String) (name : Option String)
      (role : String)
  deriving DecidableEq, Repr

/-- An awaited call into the identity provider: it either returns a value
or throws (is rejected), in which case control moves to the catch block of
the controller. -/
inductive Call (α : Type) where
  | returns (v : α)
  | throws
  deriving DecidableEq, Repr

/-- What one controller invocation observably does: HTTP status, JSON
body, cookie effects in order, and whether the identity provider was
called at all (for the no-provider-call properties). -/
structure BrokerResult where
  status : Nat
  body : Body
  cookies : List CookieAction
  providerCalled : Bool
  deriving DecidableEq, Repr

/-- Result of the provider sign-up operation: an error (error non-null in
the {data, error} pair), or success with a possibly absent user and a
possibly absent session (absent session means email confirmation is
required). -/
inductive SignUpResult where
  | fail (msg : String)
  | ok (user : Option SupabaseUser) (session : Option Session)
  deriving DecidableEq, Repr

/-- Result of the provider password sign-in operation: an error, or a
success carrying the user and a possibly absent session (the controller
guards the absent-session case explicitly). -/
inductive SignInResult where
  | fail (msg : String)
  | ok (user : SupabaseUser) (session : Option Session)
  deriving DecidableEq, Repr

/-- Result of the provider token-introspection operation getUser(token):
an error, or a success whose user may still be null (the controller
treats both as an invalid token). -/
inductive GetUserResult where
  | fail (msg : String)
  | ok (user : Option SupabaseUser)
  deriving DecidableEq, Repr

/-- Optional chaining m?.name on user_metadata. -/
def metaName : Option UserMetadata → Option String
  | none => none
  | some m => m.name

/-- Optional chaining m?.role on user_metadata. -/
def metaRole : Option UserMetadata → Option String
  | none => none
  | some m => m.role

/-- The user object built with optional chaining from a possibly absent
provider user (register response: user?.id, user?.email,
user?.user_metadata?.name, user?.user_metadata?.role). -/
def normalizeUserOpt (u : Option SupabaseUser) : UserOut :=
  { id := u.map (fun x => x.id)
    email := u.bind (fun x => x.email)
    name := u.bind (fun x => metaName x.user_metadata)
    role := u.bind (fun x => metaRole x.user_metadata) }

/-- The user object built from a present provider user (login and
getProfile responses: user.id, user.email, user.user_metadata?.name,
user.user_metadata?.role). -/
def normalizeUser (u : SupabaseUser) : UserOut :=
  { id := some u.id
    email := u.email
    name := metaName u.user_metadata
    role := metaRole u.user_metadata }

/-- The JSON body of a register request. -/
structure RegisterBody where
  email : Option String
  password : Option String
  name : Option String
  role : Option String
  deriving DecidableEq, Repr

/-- The JSON body of a login request. -/
structure LoginBody where
  email : Option String
  password : Option String
  deriving DecidableEq, Repr

/-- The consolidated register controller (POST /api/auth/register).
Validation rejects a missing email or password with 400; otherwise the
provider sign-up is awaited (signUp is its behaviour for this request): a
throw lands in the catch block (500), a provider error becomes 400 with
the provider message, success without a session becomes the 200
check-your-email acknowledgment with no cookies, and success with a
session sets the two token cookies and answers 201 with the normalized
user. -/
def register (isProduction : Bool) (req : RegisterBody)
    (signUp : Call SignUpResult) : BrokerResult :=
  if !truthy req.email || !truthy req.password then
    { status := 400, body := Body.errOnly "Email and password are required"
      cookies := [], providerCalled := false }
  else
    match signUp with
    | Call.throws =>
        { status := 500, body := Body.errOnly "Registration failed"
          cookies := [], providerCalled := true }
    | Call.returns (SignUpResult.fail msg) =>
        { status := 400, body := Body.errOnly msg
          cookies := [], providerCalled := true }
    | Call.returns (SignUpResult.ok _ none) =>
        { status := 200
          body := Body.msgOnly
            "Registration successful. Please check your email to confirm your account."
          cookies := [], providerCalled := true }
    | Call.returns (SignUpResult.ok user (some session)) =>
        { status := 201
          body := Body.msgUser "Registration successful" (normalizeUserOpt user)
          cookies :=
            [ CookieAction.set "sb-access-token" session.access_token
                (cookieOptions isProduction),
              CookieAction.set "sb-refresh-token" session.refresh_token
                (cookieOptions isProduction) ]
          providerCalled := true }

/-- The consolidated login controller (POST /api/auth/login).  Missing
email or password is rejected with 400 before any provider call; a
provider error is collapsed to 401 "Invalid credentials"; success without
a session is 401 "Login failed"; success with a session sets the two
token cookies and answers 200 with the normalized user; a throw from the
provider call lands in the catch block (500). -/
def login (isProduction : Bool) (req : LoginBody)
    (signIn : Call SignInResult) : BrokerResult :=
  if !truthy req.email || !truthy req.password then
    { status := 400, body := Body.errOnly "Email and password are required"
      cookies := [], providerCalled := false }
  else
    match signIn with
    | Call.throws =>
        { status := 500, body := Body.errOnly "Login failed"
          cookies := [], providerCalled := true }
    | Call.returns (SignInResult.fail _) =>
        { status := 401, body := Body.errOnly "Invalid credentials"
          cookies := [], providerCalled := true }
    | Call.returns (SignInResult.ok _ none) =>
        { status := 401, body := Body.errOnly "Login failed"
          cookies := [], providerCalled := true }
    | Call.returns (SignInResult.ok user (some session)) =>
        { status := 200
          body := Body.msgUser "Login successful" (normalizeUser user)
          cookies :=
            [ CookieAction.set "sb-access-token" session.access_token
                (cookieOptions isProduction),
              CookieAction.set "sb-refresh-token" session.refresh_token
                (cookieOptions isProduction) ]
          providerCalled := true }

/-- The consolidated logout controller (POST /api/auth/logout).  If the
access-token cookie is truthy the provider sign-out is awaited inside the
try block: its returned value (an error value included) is ignored, after
which both cookies are cleared and 200 is sent; if that call throws, the
catch block answers 500 "Logout failed" and no cookie is cleared.  With
no truthy cookie the provider is not called and the clear-and-200 path
runs directly. -/
def logout (cookie : Option String) (signOutCall : Call Unit) : BrokerResult :=
  if truthy cookie then
    match signOutCall with
    | Call.throws =>
        { status := 500, body := Body.errOnly "Logout failed"
          cookies := [], providerCalled := true }
    | Call.returns _ =>
        { status := 200, body := Body.msgOnly "Logout successful"
          cookies := [CookieAction.clear "sb-access-token",
                      CookieAction.clear "sb-refresh-token"]
          providerCalled := true }
  else
    { status := 200, body := Body.msgOnly "Logout successful"
      cookies := [CookieAction.clear "sb-access-token",
                  CookieAction.clear "sb-refresh-token"]
      providerCalled := false }

/-- The consolidated getProfile controller (GET /api/auth/profile).  A
missing or empty access-token cookie answers 401 "Not authenticated"; a
present cookie is introspected via the provider (getUserCall is the
behaviour of getUser on the forwarded token): an error or a null user
answers 401 "Invalid token", a user answers 200 with the normalized user,
and a throw lands in the catch block (500). -/
def getProfile (cookie : Option String)
    (getUserCall : Call GetUserResult) : BrokerResult :=
  if !truthy cookie then
    { status := 401, body := Body.errOnly "Not authenticated"
      cookies := [], providerCalled := false }
  else
    match getUserCall with
    | Call.throws =>
        { status := 500, body := Body.errOnly "Failed to get profile"
          cookies := [], providerCalled := true }
    | Call.returns (GetUserResult.fail _) =>
        { status := 401, body := Body.errOnly "Invalid token"
          cookies := [], providerCalled := true }
    | Call.returns (GetUserResult.ok none) =>
        { status := 401, body := Body.errOnly "Invalid token"
          cookies := [], providerCalled := true }
    | Call.returns (GetUserResult.ok (some u)) =>
        { status := 200, body := Body.userOnly (normalizeUser u)
          cookies := [], providerCalled := true }

/-- Outcome of the verifyToken middleware: either a response is sent, or
next() is called with the resolved user attached to the request. -/
inductive MiddlewareOutcome where
  | responded (status : Nat) (body : Body)
  | nextCalled (user : SupabaseUser)
  deriving DecidableEq, Repr

/-- The verifyToken middleware as it stands in the source
(middleware/auth.ts): a missing or empty access-token cookie answers 401
with the no-token message; otherwise the introspection step is commented
out in the source, so the introspection behaviour (second argument) is
never consulted and the middleware answers 501 not-yet-implemented.  No
path calls next(). -/
def verifyToken (cookie : Option String)
    (_introspect : Call GetUserResult) : MiddlewareOutcome :=
  if !truthy cookie then
    MiddlewareOutcome.responded 401
      (Body.errMsg "No authentication token found"
        "Please log in to access this resource")
  else
    MiddlewareOutcome.responded 501
      (Body.msgTodo "Auth middleware not yet implemented"
        "Set up Supabase and uncomment the code above")

/-- A character rejected by the character classes of the email pattern
(the JS whitespace class, restricted here to its common members). -/
def isSpaceChar (c : Char) : Bool :=
  c = ' ' || c = '\t' || c = '\n' || c = '\x0b' || c = '\x0c' || c = '\r' ||
  c = '\u00A0' || c = '\uFEFF'

/-- Splits a character list at the first occurrence of c, none when c does
not occur. -/
def splitAtChar (c : Char) : List Char → Option (List Char × List Char)
  | [] => none
  | x :: xs =>
      if x = c then some ([], xs)
      else (splitAtChar c xs).map (fun p => (x :: p.1, p.2))

/-- The email test of the draft register controller, the regex anchored
local-part, at sign, domain, dot, tld with every part non-empty and free
of whitespace and extra at signs: exactly one at sign, no whitespace
anywhere, a non-empty part before the at sign, and a dot strictly inside
the part after it. -/
def emailRegexTest (s : String) : Bool :=
  let cs := s.data
  cs.all (fun c => !isSpaceChar c) &&
  cs.count '@' == 1 &&
  (match splitAtChar '@' cs with
   | none => false
   | some (loc, dom) =>
       !loc.isEmpty &&
       (List.range dom.length).any (fun i =>
         decide (0 < i) && decide (i + 1 < dom.length) && (dom.getD i ' ' == '.')))

/-- The draft register controller
(src/backend/src/controllers/authController.ts): it validates locally
(all three of email, password, name required; email pattern; password at
least six characters), answering 400 with an error and message pair on
each failure, and otherwise answers 501 echoing the received data; it
never calls the identity provider and never sets a cookie. -/
def registerDraft (email password name role : Option String) : BrokerResult :=
  if !truthy email || !truthy password || !truthy name then
    { status := 400
      body := Body.errMsg "Missing required fields"
        "Email, password, and name are required"
      cookies := [], providerCalled := false }
  else if !emailRegexTest (email.getD "") then
    { status := 400
      body := Body.errMsg "Invalid email" "Please provide a valid email address"
      cookies := [], providerCalled := false }
  else if (password.getD "").length < 6 then
    { status := 400
      body := Body.errMsg "Weak password"
        "Password must be at least 6 characters long"
      cookies := [], providerCalled := false }
  else
    { status := 501
      body := Body.msgReceived
        "Registration endpoint - validation works! Next: call Supabase"
        email name (jsOr role "patient")
      cookies := [], providerCalled := false }

/-- The appointment status union type from
src/frontend/src/types/index.ts. -/
inductive AppointmentStatus where
  | pending
  | confirmed
  | cancelled
  | completed
  deriving DecidableEq, Repr

/-- The events acting on an appointment status. -/
inductive AppointmentEvent where
  | confirm
  | cancel
  | complete
  deriving DecidableEq, Repr

/-- The failure of an illegal appointment status transition. -/
inductive TransitionError where
  | invalidTransition
  deriving DecidableEq, Repr

/-- Modelled from the spec: the appointment status state machine (legal
transitions pending to confirmed, pending to cancelled, confirmed to
cancelled, confirmed to completed; everything else InvalidTransition) is
specified but not implemented anywhere in the source; only the status
union type exists in the frontend types. -/
def transition : AppointmentStatus → AppointmentEvent →
    Except TransitionError AppointmentStatus
  | AppointmentStatus.pending, AppointmentEvent.confirm =>
      Except.ok AppointmentStatus.confirmed
  | AppointmentStatus.pending, AppointmentEvent.cancel =>
      Except.ok AppointmentStatus.cancelled
  | AppointmentStatus.confirmed, AppointmentEvent.cancel =>
      Except.ok AppointmentStatus.cancelled
  | AppointmentStatus.confirmed, AppointmentEvent.complete =>
      Except.ok AppointmentStatus.completed
  | _, _ => Except.error TransitionError.invalidTransition

/-- Modelled from the spec: a newly created appointment starts in
pending. -/
def initialStatus : AppointmentStatus := AppointmentStatus.pending

/-- Modelled from the spec: applying an event to a status; a failing
transition leaves the status unchanged. -/
def applyEvent (s : AppointmentStatus) (e : AppointmentEvent) : AppointmentStatus :=
  match transition s e with
  | Except.ok t => t
  | Except.error _ => s

/-- A concrete provider user used to instantiate the theorems. -/
def annUser : SupabaseUser :=
  { id := "user-1", email := some "a@b.com"
    user_metadata := some { name := some "Ann", role := some "patient" } }

/-- A concrete provider session used to instantiate the theorems. -/
def annSession : Session :=
  { access_token := "acc-tok", refresh_token := "ref-tok" }

end Booking

namespace Booking

/-- Claim C1: whenever the login request carries both fields and the
identity provider returns an error, the broker answers HTTP 401 with one
and the same body regardless of which error it was, so wrong password and
nonexistent email are indistinguishable; a provider success without a
session also yields HTTP 401. -/
theorem C1_login_enumeration_resistance
    (isProd : Bool) (b1 b2 b3 : LoginBody) (m1 m2 : String) (u : SupabaseUser)
    (h1e : truthy b1.email = true) (h1p : truthy b1.password = true)
    (h2e : truthy b2.email = true) (h2p : truthy b2.password = true)
    (h3e : truthy b3.email = true) (h3p : truthy b3.password = true) :
    (login isProd b1 (Call.returns (SignInResult.fail m1))).status = 401 ∧
    (login isProd b1 (Call.returns (SignInResult.fail m1))).body =
      (login isProd b2 (Call.returns (SignInResult.fail m2))).body ∧
    (login isProd b1 (Call.returns (SignInResult.fail m1))).body =
      Body.errOnly "Invalid credentials" ∧
    (login isProd b1 (Call.returns (SignInResult.fail m1))).cookies = [] ∧
    (login isProd b3 (Call.returns (SignInResult.ok u none))).status = 401 := by
  refine ⟨?_, ?_, ?_, ?_, ?_⟩ <;>
    simp [login, h1e, h1p, h2e, h2p, h3e, h3p]

/-- Claim C1 witness: concrete wrong-password and unknown-email runs give
the identical 401 body, and a session-less provider success gives 401. -/
theorem C1_login_enumeration_resistance_witness :
    truthy (some "a@b.com") = true ∧
    ((login false { email := some "a@b.com", password := some "wrong-password" }
        (Call.returns (SignInResult.fail "Invalid login credentials"))).status = 401 ∧
     (login false { email := some "a@b.com", password := some "wrong-password" }
        (Call.returns (SignInResult.fail "Invalid login credentials"))).body =
       (login false { email := some "ghost@nowhere.com", password := some "whatever1" }
          (Call.returns (SignInResult.fail "User not found"))).body ∧
     (login false { email := some "a@b.com", password := some "wrong-password" }
        (Call.returns (SignInResult.fail "Invalid login credentials"))).body =
       Body.errOnly "Invalid credentials" ∧
     (login false { email := some "a@b.com", password := some "wrong-password" }
        (Call.returns (SignInResult.fail "Invalid login credentials"))).cookies = [] ∧
     (login false { email := some "a@b.com", password := some "secret1" }
        (Call.returns (SignInResult.ok annUser none))).status = 401) :=
  ⟨by decide,
   C1_login_enumeration_resistance false
     { email := some "a@b.com", password := some "wrong-password" }
     { email := some "ghost@nowhere.com", password := some "whatever1" }
     { email := some "a@b.com", password := some "secret1" }
     "Invalid login credentials" "User not found" annUser
     (by decide) (by decide) (by decide) (by decide) (by decide) (by decide)⟩

/-- Claim C2 counterexample: with an access-token cookie present and a
provider sign-out call that throws, logout answers HTTP 500 and clears no
cookie, refuting always-200 with unconditional cookie clearing. -/
theorem C2_logout_throw_cex :
    (logout (some "acc-tok") Call.throws).status = 500 ∧
    (logout (some "acc-tok") Call.throws).cookies = [] ∧
    (logout (some "acc-tok") Call.throws).status ≠ 200 := by decide

/-- Claim C2 (amended): when no truthy access-token cookie is present, or
the sign-out call returns normally (its result, a provider error value
included, is ignored), logout clears both cookies and answers HTTP 200;
when the cookie is present and the sign-out call throws, the catch block
answers HTTP 500 and clears nothing. -/
theorem C2_logout_amended (c0 c1 : Option String) (call0 : Call Unit)
    (h0 : truthy c0 = false) (h1 : truthy c1 = true) :
    logout c0 call0 =
      { status := 200, body := Body.msgOnly "Logout successful"
        cookies := [CookieAction.clear "sb-access-token",
                    CookieAction.clear "sb-refresh-token"]
        providerCalled := false } ∧
    logout c1 (Call.returns ()) =
      { status := 200, body := Body.msgOnly "Logout successful"
        cookies := [CookieAction.clear "sb-access-token",
                    CookieAction.clear "sb-refresh-token"]
        providerCalled := true } ∧
    logout c1 Call.throws =
      { status := 500, body := Body.errOnly "Logout failed"
        cookies := [], providerCalled := true } := by
  refine ⟨?_, ?_, ?_⟩ <;> simp [logout, h0, h1]

/-- Claim C2 witness: the amended logout behaviour at concrete cookies. -/
theorem C2_logout_amended_witness :
    truthy (none : Option String) = false ∧ truthy (some "acc-tok") = true ∧
    (logout none Call.throws =
      { status := 200, body := Body.msgOnly "Logout successful"
        cookies := [CookieAction.clear "sb-access-token",
                    CookieAction.clear "sb-refresh-token"]
        providerCalled := false } ∧
     logout (some "acc-tok") (Call.returns ()) =
      { status := 200, body := Body.msgOnly "Logout successful"
        cookies := [CookieAction.clear "sb-access-token",
                    CookieAction.clear "sb-refresh-token"]
        providerCalled := true } ∧
     logout (some "acc-tok") Call.throws =
      { status := 500, body := Body.errOnly "Logout failed"
        cookies := [], providerCalled := true }) :=
  ⟨by decide, by decide,
   C2_logout_amended none (some "acc-tok") Call.throws (by decide) (by decide)⟩

/-- Claim C3: getProfile answers 401 "Not authenticated" on a missing
cookie, 401 "Invalid token" when the introspection of a present cookie
fails (or yields no user), and 200 with exactly the fields id, email,
name, role taken from the provider user on success; the two 401 messages
are distinct. -/
theorem C3_getProfile_contract (c0 c : Option String) (p0 : Call GetUserResult)
    (m : String) (u : SupabaseUser)
    (h0 : truthy c0 = false) (hc : truthy c = true) :
    getProfile c0 p0 =
      { status := 401, body := Body.errOnly "Not authenticated"
        cookies := [], providerCalled := false } ∧
    getProfile c (Call.returns (GetUserResult.fail m)) =
      { status := 401, body := Body.errOnly "Invalid token"
        cookies := [], providerCalled := true } ∧
    getProfile c (Call.returns (GetUserResult.ok none)) =
      { status := 401, body := Body.errOnly "Invalid token"
        cookies := [], providerCalled := true } ∧
    getProfile c (Call.returns (GetUserResult.ok (some u))) =
      { status := 200
        body := Body.userOnly
          { id := some u.id, email := u.email
            name := metaName u.user_metadata, role := metaRole u.user_metadata }
        cookies := [], providerCalled := true } ∧
    Body.errOnly "Not authenticated" ≠ Body.errOnly "Invalid token" := by
  refine ⟨?_, ?_, ?_, ?_, by decide⟩ <;>
    simp [getProfile, normalizeUser, h0, hc]

/-- Claim C3 witness: the getProfile contract at concrete inputs. -/
theorem C3_getProfile_contract_witness :
    truthy (none : Option String) = false ∧ truthy (some "tok") = true ∧
    (getProfile none Call.throws =
      { status := 401, body := Body.errOnly "Not authenticated"
        cookies := [], providerCalled := false } ∧
     getProfile (some "tok") (Call.returns (GetUserResult.fail "token expired")) =
      { status := 401, body := Body.errOnly "Invalid token"
        cookies := [], providerCalled := true } ∧
     getProfile (some "tok") (Call.returns (GetUserResult.ok none)) =
      { status := 401, body := Body.errOnly "Invalid token"
        cookies := [], providerCalled := true } ∧
     getProfile (some "tok") (Call.returns (GetUserResult.ok (some annUser))) =
      { status := 200
        body := Body.userOnly
          { id := some annUser.id, email := annUser.email
            name := metaName annUser.user_metadata
            role := metaRole annUser.user_metadata }
        cookies := [], providerCalled := true } ∧
     Body.errOnly "Not authenticated" ≠ Body.errOnly "Invalid token") :=
  ⟨by decide, by decide,
   C3_getProfile_contract none (some "tok") Call.throws "token expired" annUser
     (by decide) (by decide)⟩


/-- Claim C4 counterexample: with email and password present but name
missing, the consolidated register does call the identity provider
(providerCalled is true even when the provider rejects), and with a
provider session it answers 201, not 400. -/
theorem C4_register_missing_name_cex :
    (register false
        { email := some "a@b.com", password := some "secret1", name := none, role := none }
        (Call.returns (SignUpResult.fail "provider message"))).providerCalled = true ∧
    (register false
        { email := some "a@b.com", password := some "secret1", name := none, role := none }
        (Call.returns (SignUpResult.ok (some annUser) (some annSession)))).status = 201 ∧
    truthy (none : Option String) = false := by decide

/-- Claim C4 (amended): the consolidated register rejects a missing email
or password with 400 ("Email and password are required") and no provider
call, but with email and password present the provider is always called,
even when name is missing; the draft controller does reject any of the
three fields missing with 400 and never calls the provider. -/
theorem C4_register_missing_fields_amended
    (isProd : Bool) (req : RegisterBody) (p : Call SignUpResult)
    (email password name role : Option String)
    (hmiss : truthy req.email = false ∨ truthy req.password = false)
    (hdmiss : truthy email = false ∨ truthy password = false ∨ truthy name = false) :
    register isProd req p =
      { status := 400, body := Body.errOnly "Email and password are required"
        cookies := [], providerCalled := false } ∧
    registerDraft email password name role =
      { status := 400
        body := Body.errMsg "Missing required fields"
          "Email, password, and name are required"
        cookies := [], providerCalled := false } ∧
    (∀ req2 : RegisterBody, truthy req2.email = true → truthy req2.password = true →
      (register isProd req2 p).providerCalled = true) := by
  refine ⟨?_, ?_, ?_⟩
  · rcases hmiss with h | h <;> simp [register, h]
  · rcases hdmiss with h | h | h <;> simp [registerDraft, h]
  · intro req2 he hp
    cases p with
    | throws => simp [register, he, hp]
    | returns r =>
      cases r with
      | fail m => simp [register, he, hp]
      | ok u s => cases s <;> simp [register, he, hp]

/-- Claim C4 witness: the amended register validation at concrete
inputs, including the provider call made despite a missing name. -/
theorem C4_register_missing_fields_amended_witness :
    truthy (none : Option String) = false ∧ truthy (some "a@b.com") = true ∧
    (register false { email := some "a@b.com", password := none, name := some "Ann", role := none }
        (Call.returns (SignUpResult.ok (some annUser) (some annSession))) =
      { status := 400, body := Body.errOnly "Email and password are required"
        cookies := [], providerCalled := false } ∧
     registerDraft (some "a@b.com") (some "secret1") none none =
      { status := 400
        body := Body.errMsg "Missing required fields"
          "Email, password, and name are required"
        cookies := [], providerCalled := false } ∧
     (∀ req2 : RegisterBody, truthy req2.email = true → truthy req2.password = true →
       (register false req2
         (Call.returns (SignUpResult.ok (some annUser) (some annSession)))).providerCalled = true)) :=
  ⟨by decide, by decide,
   C4_register_missing_fields_amended false
     { email := some "a@b.com", password := none, name := some "Ann", role := none }
     (Call.returns (SignUpResult.ok (some annUser) (some annSession)))
     (some "a@b.com") (some "secret1") none none
     (Or.inr (by decide)) (Or.inr (Or.inr (by decide)))⟩

/-- Claim C5 counterexample: with all three fields present and a
three-character password, the consolidated register performs no local
length check: the provider is called (even when it rejects), and with a
provider session the response is 201, not 400. -/
theorem C5_register_short_password_cex :
    (register false
        { email := some "a@b.com", password := some "abc", name := some "Ann", role := none }
        (Call.returns (SignUpResult.fail "Password should be at least 6 characters"))).providerCalled = true ∧
    (register false
        { email := some "a@b.com", password := some "abc", name := some "Ann", role := none }
        (Call.returns (SignUpResult.ok (some annUser) (some annSession)))).status = 201 ∧
    "abc".length < 6 := by decide

/-- Claim C5 (amended): the consolidated register has no local password
length check: with email and password present the provider is always
called and a 400 arises exactly from a provider rejection (carrying the
provider message); the draft controller does answer 400 with no provider
call whenever all three fields are present and the password is shorter
than six characters. -/
theorem C5_register_short_password_amended
    (isProd : Bool) (req : RegisterBody) (p : Call SignUpResult) (m : String)
    (email password name role : Option String)
    (he : truthy req.email = true) (hp : truthy req.password = true)
    (hde : truthy email = true) (hdp : truthy password = true)
    (hdn : truthy name = true)
    (hlen : (password.getD "").length < 6) :
    (register isProd req p).providerCalled = true ∧
    register isProd req (Call.returns (SignUpResult.fail m)) =
      { status := 400, body := Body.errOnly m
        cookies := [], providerCalled := true } ∧
    (registerDraft email password name role).status = 400 ∧
    (registerDraft email password name role).providerCalled = false := by
  have hd : (registerDraft email password name role).status = 400 ∧
      (registerDraft email password name role).providerCalled = false := by
    by_cases hre : emailRegexTest (email.getD "") = true
    · constructor <;> simp [registerDraft, hde, hdp, hdn, hre, hlen]
    · have hre2 : emailRegexTest (email.getD "") = false := by
        simpa using hre
      constructor <;> simp [registerDraft, hde, hdp, hdn, hre2]
  refine ⟨?_, ?_, hd.1, hd.2⟩
  · cases p with
    | throws => simp [register, he, hp]
    | returns r =>
      cases r with
      | fail m2 => simp [register, he, hp]
      | ok u s => cases s <;> simp [register, he, hp]
  · simp [register, he, hp]

/-- Claim C5 witness: the amended short-password behaviour at concrete
inputs. -/
theorem C5_register_short_password_amended_witness :
    truthy (some "a@b.com") = true ∧ truthy (some "abc") = true ∧
    "abc".length < 6 ∧
    ((register false
        { email := some "a@b.com", password := some "abc", name := some "Ann", role := none }
        (Call.returns (SignUpResult.ok (some annUser) (some annSession)))).providerCalled = true ∧
     register false
        { email := some "a@b.com", password := some "abc", name := some "Ann", role := none }
        (Call.returns (SignUpResult.fail "Password should be at least 6 characters")) =
      { status := 400, body := Body.errOnly "Password should be at least 6 characters"
        cookies := [], providerCalled := true } ∧
     (registerDraft (some "a@b.com") (some "abc") (some "Ann") none).status = 400 ∧
     (registerDraft (some "a@b.com") (some "abc") (some "Ann") none).providerCalled = false) :=
  ⟨by decide, by decide, by decide,
   C5_register_short_password_amended false
     { email := some "a@b.com", password := some "abc", name := some "Ann", role := none }
     (Call.returns (SignUpResult.ok (some annUser) (some annSession)))
     "Password should be at least 6 characters"
     (some "a@b.com") (some "abc") (some "Ann") none
     (by decide) (by decide) (by decide) (by decide) (by decide) (by decide)⟩

/-- Claim C6: a register request that passes validation and whose
provider sign-up succeeds without a session answers HTTP 200 with the
check-your-email acknowledgment and sets no cookie. -/
theorem C6_register_email_confirmation
    (isProd : Bool) (req : RegisterBody) (u : Option SupabaseUser)
    (he : truthy req.email = true) (hp : truthy req.password = true) :
    register isProd req (Call.returns (SignUpResult.ok u none)) =
      { status := 200
        body := Body.msgOnly
          "Registration successful. Please check your email to confirm your account."
        cookies := [], providerCalled := true } := by
  simp [register, he, hp]

/-- Claim C6 witness: the end-to-end scenario register a@b.com, secret1,
Ann with a session-less provider success. -/
theorem C6_register_email_confirmation_witness :
    truthy (some "a@b.com") = true ∧ truthy (some "secret1") = true ∧
    register false
        { email := some "a@b.com", password := some "secret1", name := some "Ann", role := none }
        (Call.returns (SignUpResult.ok (some annUser) none)) =
      { status := 200
        body := Body.msgOnly
          "Registration successful. Please check your email to confirm your account."
        cookies := [], providerCalled := true } :=
  ⟨by decide, by decide,
   C6_register_email_confirmation false
     { email := some "a@b.com", password := some "secret1", name := some "Ann", role := none }
     (some annUser) (by decide) (by decide)⟩

/-- Claim C7: whenever register or login sets session cookies (provider
success with a session), exactly the two token cookies are set, both with
COOKIE_OPTIONS, and those options are httpOnly, secure only in
production, sameSite strict in production else lax, a seven day max-age
(in milliseconds) and path slash. -/
theorem C7_cookie_attributes
    (isProd : Bool) (rreq : RegisterBody) (lreq : LoginBody)
    (ru : Option SupabaseUser) (lu : SupabaseUser) (s : Session)
    (hre : truthy rreq.email = true) (hrp : truthy rreq.password = true)
    (hle : truthy lreq.email = true) (hlp : truthy lreq.password = true) :
    (register isProd rreq (Call.returns (SignUpResult.ok ru (some s)))).cookies =
      [ CookieAction.set "sb-access-token" s.access_token (cookieOptions isProd),
        CookieAction.set "sb-refresh-token" s.refresh_token (cookieOptions isProd) ] ∧
    (login isProd lreq (Call.returns (SignInResult.ok lu (some s)))).cookies =
      [ CookieAction.set "sb-access-token" s.access_token (cookieOptions isProd),
        CookieAction.set "sb-refresh-token" s.refresh_token (cookieOptions isProd) ] ∧
    (cookieOptions isProd).httpOnly = true ∧
    (cookieOptions isProd).secure = isProd ∧
    (cookieOptions isProd).sameSite =
      (if isProd then SameSite.strict else SameSite.lax) ∧
    (cookieOptions isProd).maxAge = 7 * 24 * 60 * 60 * 1000 ∧
    (cookieOptions isProd).path = "/" := by
  refine ⟨?_, ?_, ?_, ?_, ?_, ?_, ?_⟩ <;>
    simp [register, login, cookieOptions, hre, hrp, hle, hlp]

/-- Claim C7 witness: the cookie attributes at concrete register and
login successes, in development mode. -/
theorem C7_cookie_attributes_witness :
    truthy (some "a@b.com") = true ∧
    ((register false
        { email := some "a@b.com", password := some "secret1", name := some "Ann", role := none }
        (Call.returns (SignUpResult.ok (some annUser) (some annSession)))).cookies =
      [ CookieAction.set "sb-access-token" annSession.access_token (cookieOptions false),
        CookieAction.set "sb-refresh-token" annSession.refresh_token (cookieOptions false) ] ∧
     (login false { email := some "a@b.com", password := some "secret1" }
        (Call.returns (SignInResult.ok annUser (some annSession)))).cookies =
      [ CookieAction.set "sb-access-token" annSession.access_token (cookieOptions false),
        CookieAction.set "sb-refresh-token" annSession.refresh_token (cookieOptions false) ] ∧
     (cookieOptions false).httpOnly = true ∧
     (cookieOptions false).secure = false ∧
     (cookieOptions false).sameSite = (if false then SameSite.strict else SameSite.lax) ∧
     (cookieOptions false).maxAge = 7 * 24 * 60 * 60 * 1000 ∧
     (cookieOptions false).path = "/") :=
  ⟨by decide,
   C7_cookie_attributes false
     { email := some "a@b.com", password := some "secret1", name := some "Ann", role := none }
     { email := some "a@b.com", password := some "secret1" }
     (some annUser) annUser annSession
     (by decide) (by decide) (by decide) (by decide)⟩


/-- Claim C8 counterexample: with an access-token cookie present and an
introspection that would accept it, the verifyToken middleware in the
source answers 501 not-yet-implemented and does not invoke the downstream
handler, refuting the attach-user-and-continue behaviour. -/
theorem C8_verifyToken_stub_cex :
    verifyToken (some "valid-token")
        (Call.returns (GetUserResult.ok (some annUser))) =
      MiddlewareOutcome.responded 501
        (Body.msgTodo "Auth middleware not yet implemented"
          "Set up Supabase and uncomment the code above") ∧
    verifyToken (some "valid-token")
        (Call.returns (GetUserResult.ok (some annUser))) ≠
      MiddlewareOutcome.nextCalled annUser := by decide

/-- Claim C8 (amended): verifyToken never invokes the downstream handler:
a missing cookie is answered 401 with the no-token message, and a present
cookie is answered 501 without consulting the introspection at all (that
step is commented out in the source). -/
theorem C8_verifyToken_amended (c : Option String) (p : Call GetUserResult) :
    (truthy c = false →
      verifyToken c p =
        MiddlewareOutcome.responded 401
          (Body.errMsg "No authentication token found"
            "Please log in to access this resource")) ∧
    (truthy c = true →
      verifyToken c p =
        MiddlewareOutcome.responded 501
          (Body.msgTodo "Auth middleware not yet implemented"
            "Set up Supabase and uncomment the code above")) ∧
    (∀ u : SupabaseUser, verifyToken c p ≠ MiddlewareOutcome.nextCalled u) := by
  refine ⟨?_, ?_, ?_⟩
  · intro h; simp [verifyToken, h]
  · intro h; simp [verifyToken, h]
  · intro u
    by_cases h : truthy c = true
    · simp [verifyToken, h]
    · have h2 : truthy c = false := by simpa using h
      simp [verifyToken, h2]

/-- Claim C8 witness: the amended middleware behaviour at concrete
cookies and a would-accept introspection. -/
theorem C8_verifyToken_amended_witness :
    truthy (none : Option String) = false ∧ truthy (some "valid-token") = true ∧
    verifyToken none (Call.returns (GetUserResult.ok (some annUser))) =
      MiddlewareOutcome.responded 401
        (Body.errMsg "No authentication token found"
          "Please log in to access this resource") ∧
    verifyToken (some "valid-token") (Call.returns (GetUserResult.ok (some annUser))) =
      MiddlewareOutcome.responded 501
        (Body.msgTodo "Auth middleware not yet implemented"
          "Set up Supabase and uncomment the code above") ∧
    verifyToken (some "valid-token") (Call.returns (GetUserResult.ok (some annUser))) ≠
      MiddlewareOutcome.nextCalled annUser :=
  ⟨by decide, by decide,
   (C8_verifyToken_amended none
      (Call.returns (GetUserResult.ok (some annUser)))).1 (by decide),
   (C8_verifyToken_amended (some "valid-token")
      (Call.returns (GetUserResult.ok (some annUser)))).2.1 (by decide),
   (C8_verifyToken_amended (some "valid-token")
      (Call.returns (GetUserResult.ok (some annUser)))).2.2 annUser⟩

/-- Claim C9: the appointment status machine (modelled from the spec over
the status union type of the source) starts at pending, allows exactly
pending to confirmed, pending to cancelled, confirmed to cancelled and
confirmed to completed, fails every other transition (in particular every
transition out of cancelled or completed) with InvalidTransition, and a
failing transition leaves the status unchanged. -/
theorem C9_appointment_state_machine :
    initialStatus = AppointmentStatus.pending ∧
    transition AppointmentStatus.pending AppointmentEvent.confirm =
      Except.ok AppointmentStatus.confirmed ∧
    transition AppointmentStatus.pending AppointmentEvent.cancel =
      Except.ok AppointmentStatus.cancelled ∧
    transition AppointmentStatus.confirmed AppointmentEvent.cancel =
      Except.ok AppointmentStatus.cancelled ∧
    transition AppointmentStatus.confirmed AppointmentEvent.complete =
      Except.ok AppointmentStatus.completed ∧
    transition AppointmentStatus.pending AppointmentEvent.complete =
      Except.error TransitionError.invalidTransition ∧
    transition AppointmentStatus.confirmed AppointmentEvent.confirm =
      Except.error TransitionError.invalidTransition ∧
    transition AppointmentStatus.cancelled AppointmentEvent.confirm =
      Except.error TransitionError.invalidTransition ∧
    transition AppointmentStatus.cancelled AppointmentEvent.cancel =
      Except.error TransitionError.invalidTransition ∧
    transition AppointmentStatus.cancelled AppointmentEvent.complete =
      Except.error TransitionError.invalidTransition ∧
    transition AppointmentStatus.completed AppointmentEvent.confirm =
      Except.error TransitionError.invalidTransition ∧
    transition AppointmentStatus.completed AppointmentEvent.cancel =
      Except.error TransitionError.invalidTransition ∧
    transition AppointmentStatus.completed AppointmentEvent.complete =
      Except.error TransitionError.invalidTransition ∧
    applyEvent AppointmentStatus.cancelled AppointmentEvent.confirm =
      AppointmentStatus.cancelled ∧
    applyEvent AppointmentStatus.completed AppointmentEvent.cancel =
      AppointmentStatus.completed ∧
    applyEvent AppointmentStatus.pending AppointmentEvent.complete =
      AppointmentStatus.pending ∧
    applyEvent AppointmentStatus.confirmed AppointmentEvent.confirm =
      AppointmentStatus.confirmed :=
  ⟨rfl, rfl, rfl, rfl, rfl, rfl, rfl, rfl, rfl, rfl, rfl, rfl, rfl, rfl, rfl,
   rfl, rfl⟩

/-- Claim C10: any register run that does not end in the 201
session-success response, and any login run that does not end in the 200
session-success response, sets no cookies at all. -/
theorem C10_no_cookies_without_session
    (isProd : Bool) (rreq : RegisterBody) (rp : Call SignUpResult)
    (lreq : LoginBody) (lp : Call SignInResult)
    (hr : (register isProd rreq rp).status ≠ 201)
    (hl : (login isProd lreq lp).status ≠ 200) :
    (register isProd rreq rp).cookies = [] ∧
    (login isProd lreq lp).cookies = [] := by
  constructor
  · by_cases hv : (!truthy rreq.email || !truthy rreq.password) = true
    · simp [register, hv]
    · have hv2 : (!truthy rreq.email || !truthy rreq.password) = false := by
        simpa using hv
      cases rp with
      | throws => simp [register, hv2]
      | returns r =>
        cases r with
        | fail m => simp [register, hv2]
        | ok u s =>
          cases s with
          | none => simp [register, hv2]
          | some sess =>
            exact absurd (by simp [register, hv2]) hr
  · by_cases hv : (!truthy lreq.email || !truthy lreq.password) = true
    · simp [login, hv]
    · have hv2 : (!truthy lreq.email || !truthy lreq.password) = false := by
        simpa using hv
      cases lp with
      | throws => simp [login, hv2]
      | returns r =>
        cases r with
        | fail m => simp [login, hv2]
        | ok u s =>
          cases s with
          | none => simp [login, hv2]
          | some sess =>
            exact absurd (by simp [login, hv2]) hl

/-- Claim C10 witness: a provider-rejected register and login at concrete
inputs are not the session-success responses, and each sets no cookies. -/
theorem C10_no_cookies_without_session_witness :
    (register false
        { email := some "a@b.com", password := some "secret1", name := some "Ann", role := none }
        (Call.returns (SignUpResult.fail "User already registered"))).status ≠ 201 ∧
    (login false { email := some "a@b.com", password := some "wrongpass" }
        (Call.returns (SignInResult.fail "Invalid login credentials"))).status ≠ 200 ∧
    (register false
        { email := some "a@b.com", password := some "secret1", name := some "Ann", role := none }
        (Call.returns (SignUpResult.fail "User already registered"))).cookies = [] ∧
    (login false { email := some "a@b.com", password := some "wrongpass" }
        (Call.returns (SignInResult.fail "Invalid login credentials"))).cookies = [] :=
  ⟨by decide, by decide,
   (C10_no_cookies_without_session false
      { email := some "a@b.com", password := some "secret1", name := some "Ann", role := none }
      (Call.returns (SignUpResult.fail "User already registered"))
      { email := some "a@b.com", password := some "wrongpass" }
      (Call.returns (SignInResult.fail "Invalid login credentials"))
      (by decide) (by decide)).1,
   (C10_no_cookies_without_session false
      { email := some "a@b.com", password := some "secret1", name := some "Ann", role := none }
      (Call.returns (SignUpResult.fail "User already registered"))
      { email := some "a@b.com", password := some "wrongpass" }
      (Call.returns (SignInResult.fail "Invalid login credentials"))
      (by decide) (by decide)).2⟩

end Booking
